import Mathlib

/-!
Verification of the pipeline-configuration core of `deep-transcribe`:
the option model `TranscribeOptions` (presets, flag-string parsing,
merge) from `transcribe_options.py` and the step orchestrator
`transcribe_with_options` from `cli_commands.py`, shallowly embedded.
-/

set_option maxHeartbeats 1000000

/-- The seven boolean flags of the `TranscribeOptions` dataclass, in the
field order of the source (all default to `False` in the source). -/
structure TranscribeOptions where
  identify_speakers : Bool
  format : Bool
  insert_section_headings : Bool
  research_paras : Bool
  add_summary_bullets : Bool
  add_description : Bool
  insert_frame_captures : Bool
deriving DecidableEq, Repr

namespace TranscribeOptions

/-- Constructor call `cls()`: the dataclass with every field at its default `False`. -/
def mkDefault : TranscribeOptions :=
  ⟨false, false, false, false, false, false, false⟩

/-- Preset `TranscribeOptions.basic()`. -/
def basic : TranscribeOptions := mkDefault

/-- Preset `TranscribeOptions.formatted()`: `cls(format=True, identify_speakers=True)`. -/
def formatted : TranscribeOptions :=
  ⟨true, true, false, false, false, false, false⟩

/-- Preset `TranscribeOptions.annotated()`: every enrichment flag on except
`research_paras` (the source comment: exclude research for annotated). -/
def annotated : TranscribeOptions :=
  ⟨true, true, true, false, true, true, true⟩

/-- Preset `TranscribeOptions.deep()`: every flag on, including `research_paras`. -/
def deep : TranscribeOptions :=
  ⟨true, true, true, true, true, true, true⟩

/-- Method `merge_with`: pairwise logical OR over every field, as in the source. -/
def merge_with (self other : TranscribeOptions) : TranscribeOptions :=
  ⟨self.identify_speakers || other.identify_speakers,
   self.format || other.format,
   self.insert_section_headings || other.insert_section_headings,
   self.research_paras || other.research_paras,
   self.add_summary_bullets || other.add_summary_bullets,
   self.add_description || other.add_description,
   self.insert_frame_captures || other.insert_frame_captures⟩

/-- The names in `options.__dataclass_fields__`, in declaration order. -/
def fieldNames : List String :=
  ["identify_speakers", "format", "insert_section_headings", "research_paras",
   "add_summary_bullets", "add_description", "insert_frame_captures"]

/-- Python `field.startswith` with a one-character argument: the first
character of the string is that character. -/
def pyStartsWithChar (s : String) (c : Char) : Bool :=
  match s.data with
  | [] => false
  | c0 :: _ => c0 == c

/-- The list `valid_options` as computed at the error site:
the dataclass fields whose name does not start with an underscore. -/
def valid_options : List String :=
  fieldNames.filter (fun field => !(pyStartsWithChar field '_'))

/-- Attributes a `TranscribeOptions` instance has besides its dataclass
fields: the methods of the class and the standard attributes every Python
object (and every dataclass) carries.  Python objects inherit further
dunder attributes from `object`; listed here are the ones relevant to
flag-like tokens plus the common dunders, enough to model that `hasattr`
answers `True` on any method or dunder name. -/
def nonFieldAttrs : List String :=
  ["basic", "formatted", "annotated", "deep", "from_with_flags", "merge_with",
   "__init__", "__repr__", "__eq__", "__hash__", "__doc__", "__module__",
   "__class__", "__dict__", "__dataclass_fields__",
   "__dataclass_params__", "__match_args__"]

/-- Python `hasattr(options, name)` for a `TranscribeOptions` instance:
true on the seven field names and on every other attribute of the
instance (methods and inherited dunders). -/
def pyHasattr (name : String) : Bool :=
  fieldNames.contains name || nonFieldAttrs.contains name

/-- Python `setattr(options, name, True)`: sets the named dataclass field when
`name` is a field name.  When `name` is a non-field attribute (a method
or dunder), Python installs a shadowing instance attribute; the seven
flag fields, which are all the dataclass observes (including in `==`),
are unchanged, so the model returns the record unchanged. -/
def setattrTrue (o : TranscribeOptions) (name : String) : TranscribeOptions :=
  if name = "identify_speakers" then
    ⟨true, o.format, o.insert_section_headings, o.research_paras,
     o.add_summary_bullets, o.add_description, o.insert_frame_captures⟩
  else if name = "format" then
    ⟨o.identify_speakers, true, o.insert_section_headings, o.research_paras,
     o.add_summary_bullets, o.add_description, o.insert_frame_captures⟩
  else if name = "insert_section_headings" then
    ⟨o.identify_speakers, o.format, true, o.research_paras,
     o.add_summary_bullets, o.add_description, o.insert_frame_captures⟩
  else if name = "research_paras" then
    ⟨o.identify_speakers, o.format, o.insert_section_headings, true,
     o.add_summary_bullets, o.add_description, o.insert_frame_captures⟩
  else if name = "add_summary_bullets" then
    ⟨o.identify_speakers, o.format, o.insert_section_headings, o.research_paras,
     true, o.add_description, o.insert_frame_captures⟩
  else if name = "add_description" then
    ⟨o.identify_speakers, o.format, o.insert_section_headings, o.research_paras,
     o.add_summary_bullets, true, o.insert_frame_captures⟩
  else if name = "insert_frame_captures" then
    ⟨o.identify_speakers, o.format, o.insert_section_headings, o.research_paras,
     o.add_summary_bullets, o.add_description, true⟩
  else o

end TranscribeOptions

/-- Whitespace in the sense of Python `str.strip()` / `str.isspace()`:
ASCII whitespace (space, tab, newline, vertical tab, form feed, carriage
return, the C0 separators) and the Unicode space characters. -/
def pyIsSpace (c : Char) : Bool :=
  c == ' ' || c == '\t' || c == '\n' || c == '\x0b' || c == '\x0c' || c == '\r' ||
  c == '\x1c' || c == '\x1d' || c == '\x1e' || c == '\x1f' ||
  c.toNat == 0x85 || c.toNat == 0xa0 || c.toNat == 0x1680 ||
  (0x2000 ≤ c.toNat && c.toNat ≤ 0x200a) ||
  c.toNat == 0x2028 || c.toNat == 0x2029 || c.toNat == 0x202f || c.toNat == 0x205f || c.toNat == 0x3000

/-- Python `str.split(",")` on a character list: cut at every comma;
adjacent, leading and trailing commas yield empty pieces, and the empty
string yields one empty piece. -/
def pySplitComma : List Char → List (List Char)
  | [] => [[]]
  | c :: rest =>
    if c == ',' then [] :: pySplitComma rest
    else
      match pySplitComma rest with
      | [] => [[c]]
      | piece :: pieces => (c :: piece) :: pieces

/-- Python `str.strip()` on a character list: drop whitespace from both ends. -/
def pyStripList (l : List Char) : List Char :=
  ((l.dropWhile pyIsSpace).reverse.dropWhile pyIsSpace).reverse

/-- Python `str.strip()` with no arguments. -/
def pyStrip (s : String) : String :=
  String.mk (pyStripList s.data)

namespace TranscribeOptions

/-- The `for flag_name in flag_names` loop of `from_with_flags`, threading
the mutated `options` instance and raising (returning `Except.error`) at
the first token for which `hasattr` is false.  Tokens that are empty
(after the stripping already done by the caller) are skipped. -/
def applyFlags (options : TranscribeOptions) :
    List String → Except String TranscribeOptions
  | [] => Except.ok options
  | flag_name :: rest =>
    if flag_name = "" then
      applyFlags options rest
    else if pyHasattr flag_name then
      applyFlags (setattrTrue options flag_name) rest
    else
      Except.error ("Unknown option " ++ flag_name ++ ". Valid options: " ++
        String.intercalate ", " valid_options)

/-- Classmethod `TranscribeOptions.from_with_flags`: parse comma-separated option
names.  Whitespace-only input yields the default instance; otherwise the
input is split on commas, each token stripped, and the loop above applied
to a fresh default instance. -/
def from_with_flags (with_flags : String) : Except String TranscribeOptions :=
  let options := mkDefault
  if pyStrip with_flags = "" then
    Except.ok options
  else
    let flag_names :=
      ((pySplitComma with_flags.data).map String.mk).map pyStrip
    applyFlags options flag_names

end TranscribeOptions

/-- The ten processing steps `transcribe_with_options` may invoke, named
after the imported actions in `cli_commands.py`. -/
inductive Step where
  | transcribe
  | identify_speakers
  | strip_html
  | break_into_paragraphs
  | backfill_timestamps
  | insert_section_headings
  | research_paras
  | add_summary_bullets
  | add_description
  | insert_frame_captures
deriving DecidableEq, Repr

/-- The external collaborators of the orchestrator: the transcription
engine (taking the item and the language code) and the nine enrichment
actions, each an opaque transformation on the transcript type `σ` that
may fail with an error of type `ε` (a raised exception). -/
structure StepActs (σ ε : Type) where
  transcribe : σ → String → Except ε σ
  identify_speakers : σ → Except ε σ
  strip_html : σ → Except ε σ
  break_into_paragraphs : σ → Except ε σ
  backfill_timestamps : σ → Except ε σ
  insert_section_headings : σ → Except ε σ
  research_paras : σ → Except ε σ
  add_summary_bullets : σ → Except ε σ
  add_description : σ → Except ε σ
  insert_frame_captures : σ → Except ε σ

/-- Orchestrator `transcribe_with_options(item, options, language)` from
`cli_commands.py`: basic transcription first, then the formatting
pipeline when `options.format` (speaker identification inside it when
`options.identify_speakers`, then HTML stripping, paragraph breaking and
timestamp backfill), then the five individually flagged annotation
steps, each rebinding `result`.  A raised exception propagates through
the `Except` bind. -/
def transcribe_with_options {σ ε : Type} (acts : StepActs σ ε) (item : σ)
    (options : TranscribeOptions) (language : String) : Except ε σ := do
  let result ← acts.transcribe item language
  let result ←
    if options.format then do
      let result ←
        if options.identify_speakers then acts.identify_speakers result
        else pure result
      let result ← acts.strip_html result
      let result ← acts.break_into_paragraphs result
      acts.backfill_timestamps result
    else pure result
  let result ←
    if options.insert_section_headings then acts.insert_section_headings result
    else pure result
  let result ←
    if options.research_paras then acts.research_paras result
    else pure result
  let result ←
    if options.add_summary_bullets then acts.add_summary_bullets result
    else pure result
  let result ←
    if options.add_description then acts.add_description result
    else pure result
  let result ←
    if options.insert_frame_captures then acts.insert_frame_captures result
    else pure result
  return result

/-- Dispatch one step to its collaborator (the transcription step also
receives the language code). -/
def applyStep {σ ε : Type} (acts : StepActs σ ε) (language : String) :
    Step → σ → Except ε σ
  | Step.transcribe, x => acts.transcribe x language
  | Step.identify_speakers, x => acts.identify_speakers x
  | Step.strip_html, x => acts.strip_html x
  | Step.break_into_paragraphs, x => acts.break_into_paragraphs x
  | Step.backfill_timestamps, x => acts.backfill_timestamps x
  | Step.insert_section_headings, x => acts.insert_section_headings x
  | Step.research_paras, x => acts.research_paras x
  | Step.add_summary_bullets, x => acts.add_summary_bullets x
  | Step.add_description, x => acts.add_description x
  | Step.insert_frame_captures, x => acts.insert_frame_captures x

/-- Run a list of steps sequentially, each consuming the previous output,
stopping at the first failure. -/
def processSteps {σ ε : Type} (f : Step → σ → Except ε σ) :
    List Step → σ → Except ε σ
  | [], x => Except.ok x
  | s :: rest, x => (f s x).bind (processSteps f rest)

/-- The list of steps a given configuration makes the orchestrator
invoke, read off the conditionals of `transcribe_with_options` in source
order. -/
def pipelineSteps (o : TranscribeOptions) : List Step :=
  [Step.transcribe] ++
  (if o.format then
    (if o.identify_speakers then [Step.identify_speakers] else []) ++
    [Step.strip_html, Step.break_into_paragraphs, Step.backfill_timestamps]
  else []) ++
  (if o.insert_section_headings then [Step.insert_section_headings] else []) ++
  (if o.research_paras then [Step.research_paras] else []) ++
  (if o.add_summary_bullets then [Step.add_summary_bullets] else []) ++
  (if o.add_description then [Step.add_description] else []) ++
  (if o.insert_frame_captures then [Step.insert_frame_captures] else [])

/-- All ten steps in the orchestrator's fixed order. -/
def allSteps : List Step :=
  [Step.transcribe, Step.identify_speakers, Step.strip_html,
   Step.break_into_paragraphs, Step.backfill_timestamps,
   Step.insert_section_headings, Step.research_paras,
   Step.add_summary_bullets, Step.add_description,
   Step.insert_frame_captures]

/-- Whether a configuration makes a given step run (the spec's reading of
the flags: `format` gates speaker identification and the three
formatting sub-steps; the five annotation steps have their own flags;
transcription is unconditional). -/
def enabledIn (o : TranscribeOptions) : Step → Bool
  | Step.transcribe => true
  | Step.identify_speakers => o.format && o.identify_speakers
  | Step.strip_html => o.format
  | Step.break_into_paragraphs => o.format
  | Step.backfill_timestamps => o.format
  | Step.insert_section_headings => o.insert_section_headings
  | Step.research_paras => o.research_paras
  | Step.add_summary_bullets => o.add_summary_bullets
  | Step.add_description => o.add_description
  | Step.insert_frame_captures => o.insert_frame_captures

/-- Tracing collaborators: the transcript is the list of steps invoked so
far, every step succeeds and records itself.  The error type is `Empty`:
no failure is possible. -/
def traceActs : StepActs (List Step) Empty :=
  ⟨fun tr _ => Except.ok (tr ++ [Step.transcribe]),
   fun tr => Except.ok (tr ++ [Step.identify_speakers]),
   fun tr => Except.ok (tr ++ [Step.strip_html]),
   fun tr => Except.ok (tr ++ [Step.break_into_paragraphs]),
   fun tr => Except.ok (tr ++ [Step.backfill_timestamps]),
   fun tr => Except.ok (tr ++ [Step.insert_section_headings]),
   fun tr => Except.ok (tr ++ [Step.research_paras]),
   fun tr => Except.ok (tr ++ [Step.add_summary_bullets]),
   fun tr => Except.ok (tr ++ [Step.add_description]),
   fun tr => Except.ok (tr ++ [Step.insert_frame_captures])⟩

/-- The steps the orchestrator invokes for a configuration, in invocation
order, observed by running it on the tracing collaborators. -/
def stepsRun (o : TranscribeOptions) : List Step :=
  match transcribe_with_options traceActs [] o "en" with
  | Except.ok tr => tr
  | Except.error e => e.elim

/-- A collaborator that fails exactly on the steps selected by `failAt`:
on success it records itself on the trace; on failure it raises an error
carrying its own identity and the trace of every step invoked so far
(itself included). -/
def failStep (failAt : Step → Bool) (s : Step) (tr : List Step) :
    Except (Step × List Step) (List Step) :=
  if failAt s then Except.error (s, tr ++ [s]) else Except.ok (tr ++ [s])

/-- The fail-at collaborators for every step. -/
def failActs (failAt : Step → Bool) : StepActs (List Step) (Step × List Step) :=
  ⟨fun tr _ => failStep failAt Step.transcribe tr,
   fun tr => failStep failAt Step.identify_speakers tr,
   fun tr => failStep failAt Step.strip_html tr,
   fun tr => failStep failAt Step.break_into_paragraphs tr,
   fun tr => failStep failAt Step.backfill_timestamps tr,
   fun tr => failStep failAt Step.insert_section_headings tr,
   fun tr => failStep failAt Step.research_paras tr,
   fun tr => failStep failAt Step.add_summary_bullets tr,
   fun tr => failStep failAt Step.add_description tr,
   fun tr => failStep failAt Step.insert_frame_captures tr⟩

/-- Orchestrator run on the fail-at collaborators from an empty trace. -/
def runFail (o : TranscribeOptions) (failAt : Step → Bool) :
    Except (Step × List Step) (List Step) :=
  transcribe_with_options (failActs failAt) [] o "en"

theorem ebind_ok {ε α β : Type} (a : α) (f : α → Except ε β) :
    (Except.ok a : Except ε α).bind f = f a := rfl

theorem ebind_err {ε α β : Type} (e : ε) (f : α → Except ε β) :
    (Except.error e : Except ε α).bind f = Except.error e := rfl

theorem ebind_assoc {ε α β γ : Type} (x : Except ε α) (f : α → Except ε β)
    (g : β → Except ε γ) :
    (x.bind f).bind g = x.bind fun a => (f a).bind g := by
  cases x <;> rfl

theorem ebind_pure {ε α : Type} (x : Except ε α) : x.bind Except.ok = x := by
  cases x <;> rfl

theorem bind_eq_ebind {ε α β : Type} (x : Except ε α) (f : α → Except ε β) :
    x >>= f = x.bind f := rfl

theorem pure_eq_ok {ε α : Type} (a : α) : (pure a : Except ε α) = Except.ok a := rfl

theorem transcribe_with_options_eq_processSteps {σ ε : Type} (acts : StepActs σ ε)
    (item : σ) (o : TranscribeOptions) (language : String) :
    transcribe_with_options acts item o language =
      processSteps (applyStep acts language) (pipelineSteps o) item := by
  rcases o with ⟨i, f, sh, rp, sb, ad, fc⟩
  cases i <;> cases f <;> cases sh <;> cases rp <;> cases sb <;> cases ad <;> cases fc <;>
    simp [transcribe_with_options, processSteps, pipelineSteps, applyStep,
      bind_eq_ebind, pure_eq_ok, ebind_assoc, ebind_ok, ebind_pure]

theorem allSteps_nodup : allSteps.Nodup := by decide

theorem pipelineSteps_eq_filter (o : TranscribeOptions) :
    pipelineSteps o = allSteps.filter (fun s => enabledIn o s) := by
  rcases o with ⟨i, f, sh, rp, sb, ad, fc⟩
  cases i <;> cases f <;> cases sh <;> cases rp <;> cases sb <;> cases ad <;> cases fc <;> rfl

theorem stepsRun_eq_pipelineSteps (o : TranscribeOptions) :
    stepsRun o = pipelineSteps o := by
  rcases o with ⟨i, f, sh, rp, sb, ad, fc⟩
  cases i <;> cases f <;> cases sh <;> cases rp <;> cases sb <;> cases ad <;> cases fc <;> rfl

theorem applyStep_failActs (failAt : Step → Bool) (language : String) :
    applyStep (failActs failAt) language = fun s => failStep failAt s := by
  funext s tr
  cases s <;> rfl

theorem processSteps_failStep (failAt : Step → Bool) :
    ∀ (L : List Step) (tr : List Step),
      processSteps (fun s => failStep failAt s) L tr =
        match L.dropWhile (fun s => !failAt s) with
        | [] => Except.ok (tr ++ L)
        | s₀ :: _ =>
          Except.error (s₀, tr ++ L.takeWhile (fun s => !failAt s) ++ [s₀]) := by
  intro L
  induction L with
  | nil => intro tr; simp [processSteps]
  | cons s rest ih =>
    intro tr
    cases h : failAt s with
    | true =>
      simp [processSteps, failStep, h, List.dropWhile_cons, List.takeWhile_cons, ebind_err]
    | false =>
      simp only [processSteps, failStep, h, if_neg, Bool.false_eq_true,
        not_false_eq_true, List.dropWhile_cons, List.takeWhile_cons, Bool.not_false,
        if_true, ebind_ok, ih (tr ++ [s])]
      cases hd : rest.dropWhile (fun s => !failAt s) <;>
        simp [List.append_assoc]

/-- C1: the spec requires every non-empty trimmed token outside the seven
flag names to fail with an error; the code instead tests `hasattr`, which
is also true on method and dunder names, so the token `merge_with` is
accepted silently and yields the all-false default configuration even
though it is not among the `valid_options` of its own error message. -/
theorem claim_C1_nonflag_token_accepted :
    TranscribeOptions.from_with_flags "merge_with" =
      Except.ok TranscribeOptions.basic ∧
    TranscribeOptions.valid_options.contains "merge_with" = false ∧
    TranscribeOptions.pyHasattr "merge_with" = true := by
  refine ⟨rfl, by decide, by decide⟩

/-- C2: speaker identification runs exactly when both `format` and
`identify_speakers` are set, and each of the three formatting sub-steps
runs exactly when `format` is set. -/
theorem claim_C2_format_gates_formatting_steps (o : TranscribeOptions) :
    (Step.identify_speakers ∈ stepsRun o ↔
      o.format = true ∧ o.identify_speakers = true) ∧
    (Step.strip_html ∈ stepsRun o ↔ o.format = true) ∧
    (Step.break_into_paragraphs ∈ stepsRun o ↔ o.format = true) ∧
    (Step.backfill_timestamps ∈ stepsRun o ↔ o.format = true) := by
  rcases o with ⟨i, f, sh, rp, sb, ad, fc⟩
  cases i <;> cases f <;> cases sh <;> cases rp <;> cases sb <;> cases ad <;> cases fc <;> decide

/-- C3: for every configuration the orchestrator is the sequential
composition, threading the transcript, of the fixed-order step list
selected by the flags; that list is the fixed all-step order filtered by
the enabled-flags predicate, and for `deep()` it is all ten steps. -/
theorem claim_C3_fixed_order_pipeline {σ ε : Type} (acts : StepActs σ ε)
    (item : σ) (language : String) (o : TranscribeOptions) :
    transcribe_with_options acts item o language =
      processSteps (applyStep acts language) (pipelineSteps o) item ∧
    stepsRun o = pipelineSteps o ∧
    pipelineSteps o = allSteps.filter (fun s => enabledIn o s) ∧
    pipelineSteps TranscribeOptions.deep = allSteps := by
  exact ⟨transcribe_with_options_eq_processSteps acts item o language,
    stepsRun_eq_pipelineSteps o, pipelineSteps_eq_filter o, by decide⟩

/-- C4: transcription is invoked exactly once and first for every
configuration, and with `basic()` the orchestrator is exactly the
transcription engine: no enrichment step, output returned unchanged. -/
theorem claim_C4_transcribe_once_first_basic_identity {σ ε : Type}
    (acts : StepActs σ ε) (item : σ) (language : String) (o : TranscribeOptions) :
    (stepsRun o).count Step.transcribe = 1 ∧
    (stepsRun o).head? = some Step.transcribe ∧
    stepsRun TranscribeOptions.basic = [Step.transcribe] ∧
    transcribe_with_options acts item TranscribeOptions.basic language =
      acts.transcribe item language := by
  refine ⟨?_, ?_, by decide, ?_⟩
  · rcases o with ⟨i, f, sh, rp, sb, ad, fc⟩
    cases i <;> cases f <;> cases sh <;> cases rp <;> cases sb <;> cases ad <;> cases fc <;> decide
  · rcases o with ⟨i, f, sh, rp, sb, ad, fc⟩
    cases i <;> cases f <;> cases sh <;> cases rp <;> cases sb <;> cases ad <;> cases fc <;> decide
  · rw [transcribe_with_options_eq_processSteps]
    show processSteps (applyStep acts language) [Step.transcribe] item = _
    simp [processSteps, applyStep, ebind_pure]

/-- C5: `merge_with` is the field-by-field OR of the seven flags; it is
commutative and associative, and `basic()` is its identity element. -/
theorem claim_C5_merge_or_comm_assoc_identity (a b c : TranscribeOptions) :
    (a.merge_with b).identify_speakers = (a.identify_speakers || b.identify_speakers) ∧
    (a.merge_with b).format = (a.format || b.format) ∧
    (a.merge_with b).insert_section_headings =
      (a.insert_section_headings || b.insert_section_headings) ∧
    (a.merge_with b).research_paras = (a.research_paras || b.research_paras) ∧
    (a.merge_with b).add_summary_bullets =
      (a.add_summary_bullets || b.add_summary_bullets) ∧
    (a.merge_with b).add_description = (a.add_description || b.add_description) ∧
    (a.merge_with b).insert_frame_captures =
      (a.insert_frame_captures || b.insert_frame_captures) ∧
    a.merge_with b = b.merge_with a ∧
    (a.merge_with b).merge_with c = a.merge_with (b.merge_with c) ∧
    TranscribeOptions.basic.merge_with a = a := by
  rcases a with ⟨a1, a2, a3, a4, a5, a6, a7⟩
  rcases b with ⟨b1, b2, b3, b4, b5, b6, b7⟩
  rcases c with ⟨c1, c2, c3, c4, c5, c6, c7⟩
  simp [TranscribeOptions.merge_with, TranscribeOptions.basic,
    TranscribeOptions.mkDefault, TranscribeOptions.mk.injEq,
    Bool.or_comm, Bool.or_assoc, Bool.or_left_comm]

/-- C6: the four preset factories produce exactly the flag table of the
spec; `annotated` and `deep` agree on every flag except `research_paras`,
false in `annotated` and true in `deep`. -/
theorem claim_C6_preset_table :
    TranscribeOptions.basic = ⟨false, false, false, false, false, false, false⟩ ∧
    TranscribeOptions.formatted = ⟨true, true, false, false, false, false, false⟩ ∧
    TranscribeOptions.annotated = ⟨true, true, true, false, true, true, true⟩ ∧
    TranscribeOptions.deep = ⟨true, true, true, true, true, true, true⟩ ∧
    TranscribeOptions.annotated.research_paras = false ∧
    TranscribeOptions.deep.research_paras = true ∧
    TranscribeOptions.annotated.identify_speakers = TranscribeOptions.deep.identify_speakers ∧
    TranscribeOptions.annotated.format = TranscribeOptions.deep.format ∧
    TranscribeOptions.annotated.insert_section_headings =
      TranscribeOptions.deep.insert_section_headings ∧
    TranscribeOptions.annotated.add_summary_bullets =
      TranscribeOptions.deep.add_summary_bullets ∧
    TranscribeOptions.annotated.add_description = TranscribeOptions.deep.add_description ∧
    TranscribeOptions.annotated.insert_frame_captures =
      TranscribeOptions.deep.insert_frame_captures := by
  decide

/-- C7: running the orchestrator on collaborators that fail exactly on the
steps selected by `failAt` shows the fail-fast contract: the steps of the
configuration's pipeline are pairwise distinct (each runs at most once);
on success the whole pipeline ran in order; on failure the invoked steps
are exactly those before the first failing step plus that step, and the
caller receives exactly the error that step raised. -/
theorem claim_C7_fail_fast (o : TranscribeOptions) (failAt : Step → Bool) :
    (pipelineSteps o).Nodup ∧
    (pipelineSteps o).takeWhile (fun s => !failAt s) ++
      (pipelineSteps o).dropWhile (fun s => !failAt s) = pipelineSteps o ∧
    runFail o failAt =
      match (pipelineSteps o).dropWhile (fun s => !failAt s) with
      | [] => Except.ok (pipelineSteps o)
      | s₀ :: _ =>
        Except.error (s₀, (pipelineSteps o).takeWhile (fun s => !failAt s) ++ [s₀]) := by
  refine ⟨?_, List.takeWhile_append_dropWhile _ _, ?_⟩
  · rw [pipelineSteps_eq_filter]
    exact List.Nodup.filter _ allSteps_nodup
  · show transcribe_with_options (failActs failAt) [] o "en" = _
    rw [transcribe_with_options_eq_processSteps, applyStep_failActs,
      processSteps_failStep]
    cases hd : (pipelineSteps o).dropWhile (fun s => !failAt s) <;> simp

/-- C8: empty or whitespace-only input to `from_with_flags` yields the
all-false default configuration and is not an error. -/
theorem claim_C8_whitespace_input_yields_default (s : String)
    (h : pyStrip s = "") :
    TranscribeOptions.from_with_flags s = Except.ok TranscribeOptions.basic := by
  unfold TranscribeOptions.from_with_flags
  simp [h, TranscribeOptions.basic]

/-- Witness for C8: the empty string and a three-space string both strip
to the empty string and parse to the default configuration. -/
theorem claim_C8_whitespace_input_yields_default_witness :
    pyStrip "" = "" ∧ pyStrip "   " = "" ∧
    TranscribeOptions.from_with_flags "" = Except.ok TranscribeOptions.basic ∧
    TranscribeOptions.from_with_flags "   " = Except.ok TranscribeOptions.basic :=
  ⟨rfl, rfl, claim_C8_whitespace_input_yields_default "" rfl,
    claim_C8_whitespace_input_yields_default "   " rfl⟩

/-- C9: tokenization trims whitespace around each comma-separated token,
so the padded and unpadded inputs parse identically, to the configuration
with exactly `format` and `insert_section_headings` set. -/
theorem claim_C9_whitespace_insensitive_tokens :
    TranscribeOptions.from_with_flags " format , insert_section_headings " =
      TranscribeOptions.from_with_flags "format,insert_section_headings" ∧
    TranscribeOptions.from_with_flags "format,insert_section_headings" =
      Except.ok ⟨false, true, true, false, false, false, false⟩ :=
  ⟨rfl, rfl⟩

/-- C10: a token that is empty after stripping is skipped by the parsing
loop rather than treated as unknown; in particular trailing commas are
harmless: `"format,,"` parses like `"format"`. -/
theorem claim_C10_empty_tokens_skipped :
    (∀ (o : TranscribeOptions) (rest : List String),
      TranscribeOptions.applyFlags o ("" :: rest) =
        TranscribeOptions.applyFlags o rest) ∧
    TranscribeOptions.from_with_flags "format,," =
      TranscribeOptions.from_with_flags "format" ∧
    TranscribeOptions.from_with_flags "format" =
      Except.ok ⟨false, true, false, false, false, false, false⟩ := by
  refine ⟨?_, rfl, rfl⟩
  intro o rest
  simp [TranscribeOptions.applyFlags]
